import Mathlib

/-
Shallow embedding of the terraform-provider-taskmate repository.

The repository is a Terraform provider with three layers that carry logic:
  internal/provider/client.go            - the REST client (Client, Task, makeRequest,
                                           CreateTask, GetTask, UpdateTask, DeleteTask, ListTasks)
  internal/provider/task_resource.go     - the managed resource CRUD callbacks
  internal/provider/task_data_source.go  - the single-task data source Read
  internal/provider/tasks_data_source.go - the task-list data source Read
  internal/provider/provider.go          - provider Configure (host default, client construction)

Modelling conventions:
  - The network is abstracted: each client operation is embedded as a pair of
    (the HttpRequest it issues, the function from the HttpResponse to its result),
    mirroring the straight-line Go control flow of makeRequest followed by the
    status-code dispatch. Transport-level failures of http.Client.Do (which the Go
    code propagates unchanged) are outside the response dispatch and not modelled.
  - JSON encoding is abstracted: a request body is the list of field name and value
    pairs that the Go code marshals (a map of strings), and response-body decoding
    is an explicit decode argument, since encoding/json is library code.
  - Go time.Time values are abstracted by their rendering under the single layout
    string used anywhere in the repository, 2006-01-02T15:04:05Z07:00; GoTime.formatRFC3339
    models t.Format with that layout.
  - Terraform framework string attributes (types.String) are embedded as TFString
    with null, unknown and value states; TFString.valueString models ValueString,
    which returns the empty string on null and unknown.
  - Adapter callbacks take the relevant client operation as an oracle argument and
    return the list of ids (or argument tuples) actually passed to the client
    together with the outcome, so that the absence of a remote call is expressible.
    Diagnostics are embedded as outcome constructors carrying the formatted detail
    string built by the Go AddError call sites; the detail text of the local parse
    error wraps the Go error value of fmt.Sscanf, whose rendering is library
    internal, so the parseError constructor carries no payload.
  - Go int is embedded as Int (overflow of Sscanf on out-of-range literals is not
    modelled; no claim depends on it).
-/

namespace TaskMate

/-- Terraform framework string attribute value: null (unset), unknown, or a known string.
Models types.String from the terraform-plugin-framework. -/
inductive TFString where
  | null
  | unknown
  | value (s : String)
deriving Repr, DecidableEq

/-- Models types.String.ValueString(): the known string, or the empty string when the
attribute is null or unknown. -/
def TFString.valueString : TFString → String
  | .value s => s
  | .null => ""
  | .unknown => ""

/-- Go time.Time, abstracted by its rendering under the fixed layout
2006-01-02T15:04:05Z07:00, the only layout the repository ever formats with. -/
structure GoTime where
  rfc3339 : String
deriving Repr, DecidableEq

/-- Models t.Format with the layout 2006-01-02T15:04:05Z07:00 (RFC3339 with offset,
second precision), as used at every Format call site in the repository. -/
def GoTime.formatRFC3339 (t : GoTime) : String := t.rfc3339

/-- Task represents a task from the API (client.go lines 20 to 29). -/
structure Task where
  id : Int
  title : String
  description : String
  dueDate : String
  priority : String
  status : String
  createdAt : GoTime
  updatedAt : GoTime
deriving Repr, DecidableEq

/-- Client handles API communication with TaskMate (client.go lines 13 to 17).
The embedded http.Client is represented by its only configured datum, the
30-second timeout. -/
structure Client where
  host : String
  token : String
  timeoutSeconds : Nat
deriving Repr, DecidableEq

/-- NewClient creates a new TaskMate API client (client.go lines 32 to 40). -/
def NewClient (host token : String) : Client :=
  { host := host, token := token, timeoutSeconds := 30 }

/-- An outgoing HTTP request as built by makeRequest: method, full URL, ordered
header list, and the marshalled JSON body abstracted as its field pairs
(none when the Go body argument is nil). -/
structure HttpRequest where
  method : String
  url : String
  headers : List (String × String)
  body : Option (List (String × String))
deriving Repr, DecidableEq

/-- An HTTP response as the client observes it: status code and raw body text. -/
structure HttpResponse where
  status : Nat
  body : String
deriving Repr, DecidableEq

/-- makeRequest (client.go lines 43 to 67): url is Host ++ "/api/v1" ++ path; the
X-API-Token header is set exactly when the configured token is non-empty; the
Content-Type header is set unconditionally; the body is passed through. -/
def makeRequest (c : Client) (method path : String)
    (body : Option (List (String × String))) : HttpRequest :=
  { method := method
  , url := c.host ++ "/api/v1" ++ path
  , headers :=
      (if c.token = "" then [] else [("X-API-Token", c.token)])
        ++ [("Content-Type", "application/json")]
  , body := body }

/-- First header with the given name, if any (req.Header lookup). -/
def findHeader (r : HttpRequest) (name : String) : Option String :=
  (r.headers.find? (fun h => h.fst = name)).map Prod.snd

/-- The error values produced by the client operations (client.go):
notFound renders as the distinguished not-found message, apiError carries the raw
response body and status code, decodeFailed models a json.Decoder failure. -/
inductive ClientError where
  | notFound (id : Int)
  | apiError (body : String) (status : Nat)
  | decodeFailed
deriving Repr, DecidableEq

/-- The message text of each client error, as built by the fmt.Errorf call sites in
client.go. The decode message elides the wrapped underlying cause. -/
def ClientError.message : ClientError → String
  | .notFound id => "task with ID " ++ toString id ++ " not found"
  | .apiError body status =>
      "API error: " ++ body ++ " (status: " ++ toString status ++ ")"
  | .decodeFailed => "failed to decode response"

/-- CreateTask (client.go lines 70 to 95): POST /tasks with the four-field body;
any status other than 201 is an API error; 201 decodes the body into a Task. -/
def CreateTask (c : Client) (decode : String → Option Task)
    (title description dueDate priority : String) :
    HttpRequest × (HttpResponse → Except ClientError Task) :=
  (makeRequest c "POST" "/tasks"
      (some [("title", title), ("description", description),
             ("due_date", dueDate), ("priority", priority)]),
   fun resp =>
     if resp.status ≠ 201 then .error (.apiError resp.body resp.status)
     else
       match decode resp.body with
       | some t => .ok t
       | none => .error .decodeFailed)

/-- GetTask (client.go lines 98 to 120): GET /tasks/id; 404 is the distinguished
not-found error; any other non-200 is an API error; 200 decodes into a Task. -/
def GetTask (c : Client) (decode : String → Option Task) (id : Int) :
    HttpRequest × (HttpResponse → Except ClientError Task) :=
  (makeRequest c "GET" ("/tasks/" ++ toString id) none,
   fun resp =>
     if resp.status = 404 then .error (.notFound id)
     else if resp.status ≠ 200 then .error (.apiError resp.body resp.status)
     else
       match decode resp.body with
       | some t => .ok t
       | none => .error .decodeFailed)

/-- UpdateTask (client.go lines 123 to 153): PUT /tasks/id with the five-field body
(status included); 404 not-found; other non-200 API error; 200 decodes. -/
def UpdateTask (c : Client) (decode : String → Option Task) (id : Int)
    (title description dueDate priority status : String) :
    HttpRequest × (HttpResponse → Except ClientError Task) :=
  (makeRequest c "PUT" ("/tasks/" ++ toString id)
      (some [("title", title), ("description", description),
             ("due_date", dueDate), ("priority", priority), ("status", status)]),
   fun resp =>
     if resp.status = 404 then .error (.notFound id)
     else if resp.status ≠ 200 then .error (.apiError resp.body resp.status)
     else
       match decode resp.body with
       | some t => .ok t
       | none => .error .decodeFailed)

/-- DeleteTask (client.go lines 156 to 173): DELETE /tasks/id; 404 not-found;
any status other than 204 is an API error; 204 succeeds with no value. -/
def DeleteTask (c : Client) (id : Int) :
    HttpRequest × (HttpResponse → Except ClientError Unit) :=
  (makeRequest c "DELETE" ("/tasks/" ++ toString id) none,
   fun resp =>
     if resp.status = 404 then .error (.notFound id)
     else if resp.status ≠ 204 then .error (.apiError resp.body resp.status)
     else .ok ())

/-- ListTasks (client.go lines 176 to 194): GET /tasks; any non-200 is an API
error; 200 decodes the body into a list of Tasks. -/
def ListTasks (c : Client) (decode : String → Option (List Task)) :
    HttpRequest × (HttpResponse → Except ClientError (List Task)) :=
  (makeRequest c "GET" "/tasks" none,
   fun resp =>
     if resp.status ≠ 200 then .error (.apiError resp.body resp.status)
     else
       match decode resp.body with
       | some ts => .ok ts
       | none => .error .decodeFailed)

/-- Models fmt.Sscanf of a string against the single verb %d into a Go int, as used
by the Read, Update and Delete callbacks and the single-task data source: leading
spaces and tabs are skipped, an optional sign is accepted, then the longest run of
decimal digits is read; if that run is empty the scan fails (none). Trailing input
is ignored, as Sscanf stops after the one operand. Overflow of the Go int range is
not modelled. -/
def parseGoInt (s : String) : Option Int :=
  let cs := s.toList.dropWhile (fun c => c = ' ' || c = '\t')
  let signed : Int × List Char :=
    match cs with
    | '-' :: rest => (-1, rest)
    | '+' :: rest => (1, rest)
    | _ => (1, cs)
  let ds := signed.snd.takeWhile Char.isDigit
  if ds.isEmpty then none
  else some (signed.fst * (ds.foldl (fun n c => 10 * n + (c.toNat - 48)) 0 : Nat))

/-- TaskResourceModel (task_resource.go lines 29 to 38): the eight string
attributes of the managed resource. -/
structure TaskResourceModel where
  id : TFString
  title : TFString
  description : TFString
  dueDate : TFString
  priority : TFString
  status : TFString
  createdAt : TFString
  updatedAt : TFString
deriving Repr, DecidableEq

/-- Outcome of the Create callback: an error diagnostic (with its detail text), or
success carrying the new state written by resp.State.Set. -/
inductive CreateOutcome where
  | clientError (detail : String)
  | success (newState : TaskResourceModel)
deriving Repr, DecidableEq

/-- Outcome of the Read and Update callbacks: the local parse error diagnostic, a
client error diagnostic (with its detail text), or success carrying the new state. -/
inductive CrudOutcome where
  | parseError
  | clientError (detail : String)
  | success (newState : TaskResourceModel)
deriving Repr, DecidableEq

/-- Outcome of the Delete callback: parse error, client error, or success (the Go
callback writes no state on success; the host prunes the resource). -/
inductive DeleteOutcome where
  | parseError
  | clientError (detail : String)
  | success
deriving Repr, DecidableEq

/-- TaskResource.Create (task_resource.go lines 137 to 167): reads the plan, calls
CreateTask with title, description, due_date and priority; on error adds the
diagnostic and returns without setting state; on success overwrites every
attribute, id and timestamps included, from the response and sets state. The
remote argument is the client call already composed with the network. -/
def taskResourceCreate
    (remote : String → String → String → String → Except ClientError Task)
    (plan : TaskResourceModel) : CreateOutcome :=
  match remote plan.title.valueString plan.description.valueString
      plan.dueDate.valueString plan.priority.valueString with
  | .error e => .clientError ("Unable to create task, got error: " ++ e.message)
  | .ok task => .success
      { id := .value (toString task.id)
      , title := .value task.title
      , description := .value task.description
      , dueDate := .value task.dueDate
      , priority := .value task.priority
      , status := .value task.status
      , createdAt := .value task.createdAt.formatRFC3339
      , updatedAt := .value task.updatedAt.formatRFC3339 }

/-- TaskResource.Read (task_resource.go lines 169 to 200): parses the stored id
with Sscanf %d, adding the parse-error diagnostic and stopping when it fails;
otherwise calls GetTask with the parsed id, adding a client-error diagnostic on
error, else overwriting every attribute except id from the response and setting
state. The first component is the list of ids actually passed to the client. -/
def taskResourceRead (remote : Int → Except ClientError Task)
    (state : TaskResourceModel) : List Int × CrudOutcome :=
  match parseGoInt state.id.valueString with
  | none => ([], .parseError)
  | some id =>
    ([id],
     match remote id with
     | .error e => .clientError ("Unable to read task, got error: " ++ e.message)
     | .ok task => .success
        { state with
          title := .value task.title
        , description := .value task.description
        , dueDate := .value task.dueDate
        , priority := .value task.priority
        , status := .value task.status
        , createdAt := .value task.createdAt.formatRFC3339
        , updatedAt := .value task.updatedAt.formatRFC3339 })

/-- TaskResource.Update (task_resource.go lines 202 to 240): parses the planned id
with Sscanf %d (parse error stops before any call); otherwise calls UpdateTask
with the parsed id and the five planned fields, status included; on success
overwrites every attribute except id from the response and sets state. The first
component is the list of ids actually passed to the client. -/
def taskResourceUpdate
    (remote : Int → String → String → String → String → String → Except ClientError Task)
    (plan : TaskResourceModel) : List Int × CrudOutcome :=
  match parseGoInt plan.id.valueString with
  | none => ([], .parseError)
  | some id =>
    ([id],
     match remote id plan.title.valueString plan.description.valueString
         plan.dueDate.valueString plan.priority.valueString plan.status.valueString with
     | .error e => .clientError ("Unable to update task, got error: " ++ e.message)
     | .ok task => .success
        { plan with
          title := .value task.title
        , description := .value task.description
        , dueDate := .value task.dueDate
        , priority := .value task.priority
        , status := .value task.status
        , createdAt := .value task.createdAt.formatRFC3339
        , updatedAt := .value task.updatedAt.formatRFC3339 })

/-- TaskResource.Delete (task_resource.go lines 242 to 263): parses the stored id
with Sscanf %d (parse error stops before any call); otherwise calls DeleteTask
with the parsed id; a client error becomes a diagnostic; on success nothing is
written. The first component is the list of ids actually passed to the client. -/
def taskResourceDelete (remote : Int → Except ClientError Unit)
    (state : TaskResourceModel) : List Int × DeleteOutcome :=
  match parseGoInt state.id.valueString with
  | none => ([], .parseError)
  | some id =>
    ([id],
     match remote id with
     | .error e => .clientError ("Unable to delete task, got error: " ++ e.message)
     | .ok _ => .success)

/-- TaskDataSourceModel (task_data_source.go): the eight string attributes of the
single-task data source. -/
structure TaskDataSourceModel where
  id : TFString
  title : TFString
  description : TFString
  dueDate : TFString
  priority : TFString
  status : TFString
  createdAt : TFString
  updatedAt : TFString
deriving Repr, DecidableEq

/-- Outcome of the single-task data source Read. -/
inductive TaskDSOutcome where
  | parseError
  | clientError (detail : String)
  | success (newState : TaskDataSourceModel)
deriving Repr, DecidableEq

/-- TaskDataSource.Read (task_data_source.go lines 99 to 130): parses the
configured id with Sscanf %d, calls GetTask, populates every attribute except id
from the response. The first component is the list of ids passed to the client. -/
def taskDataSourceRead (remote : Int → Except ClientError Task)
    (config : TaskDataSourceModel) : List Int × TaskDSOutcome :=
  match parseGoInt config.id.valueString with
  | none => ([], .parseError)
  | some id =>
    ([id],
     match remote id with
     | .error e => .clientError ("Unable to read task, got error: " ++ e.message)
     | .ok task => .success
        { config with
          title := .value task.title
        , description := .value task.description
        , dueDate := .value task.dueDate
        , priority := .value task.priority
        , status := .value task.status
        , createdAt := .value task.createdAt.formatRFC3339
        , updatedAt := .value task.updatedAt.formatRFC3339 })

/-- TasksDataSourceModel (tasks_data_source.go lines 25 to 28): the nested task
list and the data source placeholder id. -/
structure TasksDataSourceModel where
  tasks : List TaskDataSourceModel
  id : TFString
deriving Repr, DecidableEq

/-- Outcome of the task-list data source Read. -/
inductive TasksDSOutcome where
  | clientError (detail : String)
  | success (newState : TasksDataSourceModel)
deriving Repr, DecidableEq

/-- TasksDataSource.Read (tasks_data_source.go lines 105 to 139): calls ListTasks;
on error adds the diagnostic; on success maps every returned task, in order, to the
per-task model (id rendered in decimal, timestamps under the fixed layout) and sets
the placeholder id of the data source itself to the constant string. -/
def tasksDataSourceRead (remote : Unit → Except ClientError (List Task))
    (config : TasksDataSourceModel) : TasksDSOutcome :=
  match remote () with
  | .error e => .clientError ("Unable to list tasks, got error: " ++ e.message)
  | .ok tasks => .success
      { config with
        tasks := tasks.map (fun task =>
          { id := .value (toString task.id)
          , title := .value task.title
          , description := .value task.description
          , dueDate := .value task.dueDate
          , priority := .value task.priority
          , status := .value task.status
          , createdAt := .value task.createdAt.formatRFC3339
          , updatedAt := .value task.updatedAt.formatRFC3339 })
      , id := .value "tasks" }

/-- TaskMateProviderModel (provider.go lines 24 to 27): the host and token
provider attributes. -/
structure TaskMateProviderModel where
  host : TFString
  token : TFString
deriving Repr, DecidableEq

/-- TaskMateProvider.Configure (provider.go lines 51 to 74): takes the host
attribute value, substitutes the fixed localhost URL when it is empty (which
covers null and unknown, whose ValueString is empty), and builds the shared client
with NewClient from that host and the token attribute value. -/
def providerConfigure (config : TaskMateProviderModel) : Client :=
  let host := config.host.valueString
  let host := if host = "" then "http://localhost:8080" else host
  NewClient host config.token.valueString

/-! Concrete sample values used by the witness theorems. -/

/-- A sample rendered timestamp. -/
def sampleTime : GoTime := { rfc3339 := "2024-01-02T03:04:05Z" }

/-- A sample Task as decoded from a response body. -/
def sampleTask : Task :=
  { id := 7, title := "Deploy", description := "d", dueDate := "2024-12-31"
  , priority := "high", status := "pending", createdAt := sampleTime, updatedAt := sampleTime }

/-- A sample configured client with a non-empty token. -/
def sampleClient : Client := NewClient "http://localhost:8080" "secret"

/-- A sample decoder that always yields sampleTask. -/
def sampleDecode : String → Option Task := fun _ => some sampleTask

/-- A sample list decoder. -/
def sampleDecodeList : String → Option (List Task) := fun _ => some [sampleTask]

/-- A sample GetTask-shaped oracle that always succeeds with sampleTask. -/
def sampleRemoteGet : Int → Except ClientError Task := fun _ => .ok sampleTask

/-- A sample UpdateTask-shaped oracle that always succeeds with sampleTask. -/
def sampleRemoteUpdate :
    Int → String → String → String → String → String → Except ClientError Task :=
  fun _ _ _ _ _ _ => .ok sampleTask

/-- A sample DeleteTask-shaped oracle that always succeeds. -/
def sampleRemoteDelete : Int → Except ClientError Unit := fun _ => .ok ()

/-- A sample CreateTask-shaped oracle that always succeeds with sampleTask. -/
def sampleRemoteCreate : String → String → String → String → Except ClientError Task :=
  fun _ _ _ _ => .ok sampleTask

/-- A sample CreateTask-shaped oracle that always fails with an API error. -/
def sampleRemoteCreateFail : String → String → String → String → Except ClientError Task :=
  fun _ _ _ _ => .error (.apiError "boom" 500)

/-- A resource state whose stored id string does not parse as an integer. -/
def stateMalformedId : TaskResourceModel :=
  { id := .value "abc", title := .value "t", description := .null, dueDate := .null
  , priority := .null, status := .null, createdAt := .null, updatedAt := .null }

/-- A resource state whose stored id string parses as 42. -/
def stateId42 : TaskResourceModel := { stateMalformedId with id := .value "42" }

/-- The state written by a successful Read of stateId42 against sampleTask. -/
def expectedReadState : TaskResourceModel :=
  { stateId42 with
    title := .value "Deploy"
  , description := .value "d"
  , dueDate := .value "2024-12-31"
  , priority := .value "high"
  , status := .value "pending"
  , createdAt := .value "2024-01-02T03:04:05Z"
  , updatedAt := .value "2024-01-02T03:04:05Z" }

/-- The state written by a successful Create against sampleTask. -/
def expectedCreatedState : TaskResourceModel :=
  { id := .value "7"
  , title := .value "Deploy"
  , description := .value "d"
  , dueDate := .value "2024-12-31"
  , priority := .value "high"
  , status := .value "pending"
  , createdAt := .value "2024-01-02T03:04:05Z"
  , updatedAt := .value "2024-01-02T03:04:05Z" }

/-- The per-task data source model obtained by mapping sampleTask. -/
def sampleMappedTask : TaskDataSourceModel :=
  { id := .value "7"
  , title := .value "Deploy"
  , description := .value "d"
  , dueDate := .value "2024-12-31"
  , priority := .value "high"
  , status := .value "pending"
  , createdAt := .value "2024-01-02T03:04:05Z"
  , updatedAt := .value "2024-01-02T03:04:05Z" }

/-! Claim theorems. -/

/-- C1: in the managed resource Read, Update and Delete callbacks, a stored id
string on which the Sscanf %d parse fails produces the local parse-error
diagnostic and an empty client-call log (no remote call is made, whatever the
client would answer), while an id string that parses as n makes the callback call
the client with exactly n. -/
theorem c1_id_parse_gate
    (rGet : Int → Except ClientError Task)
    (rUpd : Int → String → String → String → String → String → Except ClientError Task)
    (rDel : Int → Except ClientError Unit)
    (s : TaskResourceModel) :
    (parseGoInt s.id.valueString = none →
        taskResourceRead rGet s = ([], .parseError) ∧
        taskResourceUpdate rUpd s = ([], .parseError) ∧
        taskResourceDelete rDel s = ([], .parseError)) ∧
    (∀ n : Int, parseGoInt s.id.valueString = some n →
        (taskResourceRead rGet s).fst = [n] ∧
        (taskResourceUpdate rUpd s).fst = [n] ∧
        (taskResourceDelete rDel s).fst = [n]) := by
  constructor
  · intro h
    refine ⟨?_, ?_, ?_⟩ <;>
      simp [taskResourceRead, taskResourceUpdate, taskResourceDelete, h]
  · intro n h
    refine ⟨?_, ?_, ?_⟩ <;>
      simp [taskResourceRead, taskResourceUpdate, taskResourceDelete, h]

/-- Witness for C1 at the malformed id "abc" and the parsing id "42". -/
theorem c1_id_parse_gate_witness :
    (taskResourceRead sampleRemoteGet stateMalformedId = ([], .parseError) ∧
     taskResourceUpdate sampleRemoteUpdate stateMalformedId = ([], .parseError) ∧
     taskResourceDelete sampleRemoteDelete stateMalformedId = ([], .parseError)) ∧
    ((taskResourceRead sampleRemoteGet stateId42).fst = [42] ∧
     (taskResourceUpdate sampleRemoteUpdate stateId42).fst = [42] ∧
     (taskResourceDelete sampleRemoteDelete stateId42).fst = [42]) :=
  ⟨(c1_id_parse_gate sampleRemoteGet sampleRemoteUpdate sampleRemoteDelete
      stateMalformedId).1 (by decide)
  , (c1_id_parse_gate sampleRemoteGet sampleRemoteUpdate sampleRemoteDelete
      stateId42).2 42 (by decide)⟩

/-- C2: every client operation targets host ++ "/api/v1" ++ path with the method
of the operation; the X-API-Token header carries the configured token exactly when
it is non-empty; the non-GET/DELETE operations (POST create, PUT update) carry a
JSON field body, the GET and DELETE operations carry none, and the Content-Type
header is application/json. -/
theorem c2_request_construction (c : Client) (decode : String → Option Task)
    (decodeList : String → Option (List Task)) (t d dd p st : String) (id : Int) :
    ((CreateTask c decode t d dd p).fst.method = "POST" ∧
     (CreateTask c decode t d dd p).fst.url = c.host ++ "/api/v1" ++ "/tasks" ∧
     (CreateTask c decode t d dd p).fst.body =
       some [("title", t), ("description", d), ("due_date", dd), ("priority", p)]) ∧
    ((GetTask c decode id).fst.method = "GET" ∧
     (GetTask c decode id).fst.url = c.host ++ "/api/v1" ++ ("/tasks/" ++ toString id) ∧
     (GetTask c decode id).fst.body = none) ∧
    ((UpdateTask c decode id t d dd p st).fst.method = "PUT" ∧
     (UpdateTask c decode id t d dd p st).fst.url =
       c.host ++ "/api/v1" ++ ("/tasks/" ++ toString id) ∧
     (UpdateTask c decode id t d dd p st).fst.body =
       some [("title", t), ("description", d), ("due_date", dd), ("priority", p),
             ("status", st)]) ∧
    ((DeleteTask c id).fst.method = "DELETE" ∧
     (DeleteTask c id).fst.url = c.host ++ "/api/v1" ++ ("/tasks/" ++ toString id) ∧
     (DeleteTask c id).fst.body = none) ∧
    ((ListTasks c decodeList).fst.method = "GET" ∧
     (ListTasks c decodeList).fst.url = c.host ++ "/api/v1" ++ "/tasks" ∧
     (ListTasks c decodeList).fst.body = none) ∧
    (∀ (m path : String) (b : Option (List (String × String))),
        findHeader (makeRequest c m path b) "X-API-Token" =
          (if c.token = "" then none else some c.token)) ∧
    (∀ (m path : String) (b : Option (List (String × String))),
        findHeader (makeRequest c m path b) "Content-Type" =
          some "application/json") := by
  refine ⟨⟨rfl, rfl, rfl⟩, ⟨rfl, rfl, rfl⟩, ⟨rfl, rfl, rfl⟩, ⟨rfl, rfl, rfl⟩,
    ⟨rfl, rfl, rfl⟩, ?_, ?_⟩
  · intro m path b
    by_cases hc : c.token = "" <;> simp [findHeader, makeRequest, hc]
  · intro m path b
    by_cases hc : c.token = "" <;> simp [findHeader, makeRequest, hc]

/-- C3: GetTask issues GET on host ++ /api/v1/tasks/id with no body; a 404
response yields the distinguished not-found error, whose message mentions the id
and which carries no Task; any other non-200 response yields the generic API error
carrying the raw response body and status code and no Task; a 200 response whose
body decodes to a task t yields t with no error. -/
theorem c3_getTask_contract (c : Client) (decode : String → Option Task) (id : Int)
    (resp : HttpResponse) (t : Task) :
    (GetTask c decode id).fst.method = "GET" ∧
    (GetTask c decode id).fst.url = c.host ++ "/api/v1" ++ ("/tasks/" ++ toString id) ∧
    (GetTask c decode id).fst.body = none ∧
    ClientError.message (.notFound id) = "task with ID " ++ toString id ++ " not found" ∧
    (resp.status = 404 → (GetTask c decode id).snd resp = .error (.notFound id)) ∧
    (resp.status ≠ 404 → resp.status ≠ 200 →
        (GetTask c decode id).snd resp = .error (.apiError resp.body resp.status)) ∧
    (resp.status = 200 → decode resp.body = some t →
        (GetTask c decode id).snd resp = .ok t) := by
  refine ⟨rfl, rfl, rfl, rfl, ?_, ?_, ?_⟩
  · intro h
    simp [GetTask, h]
  · intro h1 h2
    simp [GetTask, h1, h2]
  · intro h1 h2
    simp [GetTask, h1, h2]

/-- Witness for C3 at id 7 with a 404, a 500 and a 200 response. -/
theorem c3_getTask_contract_witness :
    (GetTask sampleClient sampleDecode 7).snd { status := 404, body := "" } =
      .error (.notFound 7) ∧
    (GetTask sampleClient sampleDecode 7).snd { status := 500, body := "boom" } =
      .error (.apiError "boom" 500) ∧
    (GetTask sampleClient sampleDecode 7).snd { status := 200, body := "" } =
      .ok sampleTask :=
  ⟨(c3_getTask_contract sampleClient sampleDecode 7 { status := 404, body := "" }
      sampleTask).2.2.2.2.1 (by decide)
  , (c3_getTask_contract sampleClient sampleDecode 7 { status := 500, body := "boom" }
      sampleTask).2.2.2.2.2.1 (by decide) (by decide)
  , (c3_getTask_contract sampleClient sampleDecode 7 { status := 200, body := "" }
      sampleTask).2.2.2.2.2.2 (by decide) rfl⟩

/-- C6: DeleteTask issues DELETE on host ++ /api/v1/tasks/id with no body; a 404
response yields the not-found error; a 204 response yields success with no value;
any other status yields the generic API error carrying the raw response body and
status code. -/
theorem c6_deleteTask_contract (c : Client) (id : Int) (resp : HttpResponse) :
    (DeleteTask c id).fst.method = "DELETE" ∧
    (DeleteTask c id).fst.url = c.host ++ "/api/v1" ++ ("/tasks/" ++ toString id) ∧
    (DeleteTask c id).fst.body = none ∧
    (resp.status = 404 → (DeleteTask c id).snd resp = .error (.notFound id)) ∧
    (resp.status = 204 → (DeleteTask c id).snd resp = .ok ()) ∧
    (resp.status ≠ 404 → resp.status ≠ 204 →
        (DeleteTask c id).snd resp = .error (.apiError resp.body resp.status)) := by
  refine ⟨rfl, rfl, rfl, ?_, ?_, ?_⟩
  · intro h
    simp [DeleteTask, h]
  · intro h
    simp [DeleteTask, h]
  · intro h1 h2
    simp [DeleteTask, h1, h2]

/-- Witness for C6 at id 7 with a 404, a 204 and a 500 response. -/
theorem c6_deleteTask_contract_witness :
    (DeleteTask sampleClient 7).snd { status := 404, body := "" } =
      .error (.notFound 7) ∧
    (DeleteTask sampleClient 7).snd { status := 204, body := "" } = .ok () ∧
    (DeleteTask sampleClient 7).snd { status := 500, body := "boom" } =
      .error (.apiError "boom" 500) :=
  ⟨(c6_deleteTask_contract sampleClient 7 { status := 404, body := "" }).2.2.2.1
      (by decide)
  , (c6_deleteTask_contract sampleClient 7 { status := 204, body := "" }).2.2.2.2.1
      (by decide)
  , (c6_deleteTask_contract sampleClient 7 { status := 500, body := "boom" }).2.2.2.2.2
      (by decide) (by decide)⟩

/-- C10: every request built by makeRequest, bodiless GET and DELETE requests
included, carries the Content-Type application/json header, and carries the
X-API-Token header with the configured token whenever that token is non-empty;
instantiated explicitly at the GET, DELETE and list requests of the client. -/
theorem c10_headers_on_every_request (c : Client) (decode : String → Option Task)
    (decodeList : String → Option (List Task)) (id : Int) (m path : String)
    (b : Option (List (String × String))) :
    findHeader (makeRequest c m path b) "Content-Type" = some "application/json" ∧
    (c.token ≠ "" →
        findHeader (makeRequest c m path b) "X-API-Token" = some c.token) ∧
    findHeader (GetTask c decode id).fst "Content-Type" = some "application/json" ∧
    findHeader (DeleteTask c id).fst "Content-Type" = some "application/json" ∧
    findHeader (ListTasks c decodeList).fst "Content-Type" = some "application/json" ∧
    (c.token ≠ "" →
        findHeader (GetTask c decode id).fst "X-API-Token" = some c.token ∧
        findHeader (DeleteTask c id).fst "X-API-Token" = some c.token ∧
        findHeader (ListTasks c decodeList).fst "X-API-Token" = some c.token) := by
  refine ⟨?_, ?_, ?_, ?_, ?_, ?_⟩
  · by_cases hc : c.token = "" <;> simp [findHeader, makeRequest, hc]
  · intro hc
    simp [findHeader, makeRequest, hc]
  · by_cases hc : c.token = "" <;>
      simp [findHeader, makeRequest, GetTask, hc]
  · by_cases hc : c.token = "" <;>
      simp [findHeader, makeRequest, DeleteTask, hc]
  · by_cases hc : c.token = "" <;>
      simp [findHeader, makeRequest, ListTasks, hc]
  · intro hc
    refine ⟨?_, ?_, ?_⟩ <;>
      simp [findHeader, makeRequest, GetTask, DeleteTask, ListTasks, hc]

/-- Witness for C10 at the sample client, whose token "secret" is non-empty, on a
bodiless GET request. -/
theorem c10_headers_on_every_request_witness :
    findHeader (makeRequest sampleClient "GET" "/tasks" none) "Content-Type" =
      some "application/json" ∧
    findHeader (makeRequest sampleClient "GET" "/tasks" none) "X-API-Token" =
      some "secret" ∧
    findHeader (GetTask sampleClient sampleDecode 7).fst "X-API-Token" =
      some "secret" :=
  ⟨(c10_headers_on_every_request sampleClient sampleDecode sampleDecodeList 7
      "GET" "/tasks" none).1
  , (c10_headers_on_every_request sampleClient sampleDecode sampleDecodeList 7
      "GET" "/tasks" none).2.1 (by decide)
  , ((c10_headers_on_every_request sampleClient sampleDecode sampleDecodeList 7
      "GET" "/tasks" none).2.2.2.2.2 (by decide)).1⟩

/-- C4: when the client CreateTask call made by the resource Create callback
fails, the callback produces the error diagnostic (with the wrapped message) and
no state is written; a success outcome, with its written state, arises exactly
when the client call succeeds. -/
theorem c4_create_state_only_on_success
    (remote : String → String → String → String → Except ClientError Task)
    (plan : TaskResourceModel) :
    (∀ e : ClientError,
        remote plan.title.valueString plan.description.valueString
            plan.dueDate.valueString plan.priority.valueString = .error e →
        taskResourceCreate remote plan =
          .clientError ("Unable to create task, got error: " ++ e.message)) ∧
    (∀ task : Task,
        remote plan.title.valueString plan.description.valueString
            plan.dueDate.valueString plan.priority.valueString = .ok task →
        taskResourceCreate remote plan = .success
          { id := .value (toString task.id)
          , title := .value task.title
          , description := .value task.description
          , dueDate := .value task.dueDate
          , priority := .value task.priority
          , status := .value task.status
          , createdAt := .value task.createdAt.formatRFC3339
          , updatedAt := .value task.updatedAt.formatRFC3339 }) ∧
    (∀ s : TaskResourceModel, taskResourceCreate remote plan = .success s →
        ∃ task : Task,
          remote plan.title.valueString plan.description.valueString
              plan.dueDate.valueString plan.priority.valueString = .ok task) := by
  refine ⟨?_, ?_, ?_⟩
  · intro e h
    simp [taskResourceCreate, h]
  · intro task h
    simp [taskResourceCreate, h]
  · intro s h
    unfold taskResourceCreate at h
    cases hr : remote plan.title.valueString plan.description.valueString
        plan.dueDate.valueString plan.priority.valueString with
    | error e =>
        rw [hr] at h
        simp at h
    | ok task => exact ⟨task, rfl⟩

/-- Witness for C4 at a failing and a succeeding client call. -/
theorem c4_create_state_only_on_success_witness :
    taskResourceCreate sampleRemoteCreateFail stateId42 =
      .clientError ("Unable to create task, got error: " ++
        ClientError.message (.apiError "boom" 500)) ∧
    taskResourceCreate sampleRemoteCreate stateId42 =
      .success expectedCreatedState :=
  ⟨(c4_create_state_only_on_success sampleRemoteCreateFail stateId42).1
      (.apiError "boom" 500) rfl
  , (c4_create_state_only_on_success sampleRemoteCreate stateId42).2.1
      sampleTask rfl⟩

/-- C5: a successful resource Read overwrites title, description, due_date,
priority, status, created_at and updated_at from the GetTask response while the
id attribute stays exactly the prior state value (any success outcome keeps the
stored id); and when GetTask answers a 404, the Read callback reports the
not-found message as an ordinary client-error diagnostic, there being no outcome
that removes the resource from state. -/
theorem c5_read_overwrites_all_but_id
    (remote : Int → Except ClientError Task) (s : TaskResourceModel) (n : Int)
    (task : Task) (hparse : parseGoInt s.id.valueString = some n) :
    (remote n = .ok task →
        taskResourceRead remote s =
          ([n], .success
            { s with
              title := .value task.title
            , description := .value task.description
            , dueDate := .value task.dueDate
            , priority := .value task.priority
            , status := .value task.status
            , createdAt := .value task.createdAt.formatRFC3339
            , updatedAt := .value task.updatedAt.formatRFC3339 })) ∧
    (∀ (l : List Int) (s2 : TaskResourceModel),
        taskResourceRead remote s = (l, .success s2) → s2.id = s.id) ∧
    (∀ (c : Client) (decode : String → Option Task) (resp : HttpResponse),
        resp.status = 404 →
        taskResourceRead (fun i => (GetTask c decode i).snd resp) s =
          ([n], .clientError ("Unable to read task, got error: " ++
            ("task with ID " ++ toString n ++ " not found")))) := by
  refine ⟨?_, ?_, ?_⟩
  · intro h
    simp [taskResourceRead, hparse, h]
  · intro l s2 h
    simp only [taskResourceRead, hparse] at h
    cases hr : remote n with
    | error e =>
        rw [hr] at h
        simp at h
    | ok tk =>
        rw [hr] at h
        simp only [Prod.mk.injEq, CrudOutcome.success.injEq] at h
        rw [← h.2]
  · intro c decode resp h404
    simp [taskResourceRead, hparse, GetTask, h404, ClientError.message]

/-- Witness for C5 at the stored id "42" with a successful response and with a
404 response. -/
theorem c5_read_overwrites_all_but_id_witness :
    taskResourceRead sampleRemoteGet stateId42 = ([42], .success expectedReadState) ∧
    expectedReadState.id = stateId42.id ∧
    taskResourceRead (fun i => (GetTask sampleClient sampleDecode i).snd
        { status := 404, body := "" }) stateId42 =
      ([42], .clientError ("Unable to read task, got error: " ++
        ("task with ID " ++ toString (42 : Int) ++ " not found"))) :=
  ⟨(c5_read_overwrites_all_but_id sampleRemoteGet stateId42 42 sampleTask
      (by decide)).1 rfl
  , (c5_read_overwrites_all_but_id sampleRemoteGet stateId42 42 sampleTask
      (by decide)).2.1 [42] expectedReadState
      (((c5_read_overwrites_all_but_id sampleRemoteGet stateId42 42 sampleTask
        (by decide)).1 rfl))
  , (c5_read_overwrites_all_but_id sampleRemoteGet stateId42 42 sampleTask
      (by decide)).2.2 sampleClient sampleDecode { status := 404, body := "" }
      (by decide)⟩

/-- C9: the CreateTask request body holds exactly the four fields title,
description, due_date and priority, none of them named status; the resource
Create outcome does not depend on the planned status attribute at all; and any
state written by a successful Create carries the status of the server response. -/
theorem c9_create_ignores_plan_status (c : Client) (decode : String → Option Task)
    (t d dd p : String)
    (remote : String → String → String → String → Except ClientError Task)
    (plan : TaskResourceModel) (task : Task) :
    (CreateTask c decode t d dd p).fst.body =
      some [("title", t), ("description", d), ("due_date", dd), ("priority", p)] ∧
    ((CreateTask c decode t d dd p).fst.body.map (fun l => l.map Prod.fst)) =
      some ["title", "description", "due_date", "priority"] ∧
    (∀ st : TFString,
        taskResourceCreate remote { plan with status := st } =
          taskResourceCreate remote plan) ∧
    (∀ s2 : TaskResourceModel,
        remote plan.title.valueString plan.description.valueString
            plan.dueDate.valueString plan.priority.valueString = .ok task →
        taskResourceCreate remote plan = .success s2 →
        s2.status = .value task.status) := by
  refine ⟨rfl, rfl, ?_, ?_⟩
  · intro st
    rfl
  · intro s2 h1 h2
    simp only [taskResourceCreate, h1, CreateOutcome.success.injEq] at h2
    rw [← h2]

/-- Witness for C9: the plan status "completed" is not transmitted and the
persisted status is the server value "pending". -/
theorem c9_create_ignores_plan_status_witness :
    (CreateTask sampleClient sampleDecode "a" "b" "c" "d").fst.body =
      some [("title", "a"), ("description", "b"), ("due_date", "c"), ("priority", "d")] ∧
    taskResourceCreate sampleRemoteCreate
        { stateId42 with status := .value "completed" } =
      taskResourceCreate sampleRemoteCreate stateId42 ∧
    expectedCreatedState.status = .value "pending" :=
  ⟨(c9_create_ignores_plan_status sampleClient sampleDecode "a" "b" "c" "d"
      sampleRemoteCreate stateId42 sampleTask).1
  , (c9_create_ignores_plan_status sampleClient sampleDecode "a" "b" "c" "d"
      sampleRemoteCreate stateId42 sampleTask).2.2.1 (.value "completed")
  , (c9_create_ignores_plan_status sampleClient sampleDecode "a" "b" "c" "d"
      sampleRemoteCreate stateId42 sampleTask).2.2.2 expectedCreatedState rfl
      (by decide)⟩

/-- C7: a successful task-list data source Read maps the returned tasks, in
order, through exactly the per-task shape of the single-task data source (id
rendered as a decimal string, timestamps under the fixed RFC3339-with-offset
layout), yields a list of the same length, and sets the placeholder id of the data
source itself to the constant string "tasks"; the last conjunct shows the
single-task data source populating its fields by the same rendering. -/
theorem c7_tasks_data_source_mapping
    (remote : Unit → Except ClientError (List Task)) (config : TasksDataSourceModel)
    (tasks : List Task) (h : remote () = .ok tasks) :
    tasksDataSourceRead remote config = .success
      { tasks := tasks.map (fun task =>
          { id := .value (toString task.id)
          , title := .value task.title
          , description := .value task.description
          , dueDate := .value task.dueDate
          , priority := .value task.priority
          , status := .value task.status
          , createdAt := .value task.createdAt.formatRFC3339
          , updatedAt := .value task.updatedAt.formatRFC3339 })
      , id := .value "tasks" } ∧
    (∀ s2 : TasksDataSourceModel, tasksDataSourceRead remote config = .success s2 →
        s2.tasks.length = tasks.length) ∧
    (∀ (cfg : TaskDataSourceModel) (rg : Int → Except ClientError Task)
        (m : Int) (tk : Task),
        parseGoInt cfg.id.valueString = some m → rg m = .ok tk →
        taskDataSourceRead rg cfg =
          ([m], .success
            { cfg with
              title := .value tk.title
            , description := .value tk.description
            , dueDate := .value tk.dueDate
            , priority := .value tk.priority
            , status := .value tk.status
            , createdAt := .value tk.createdAt.formatRFC3339
            , updatedAt := .value tk.updatedAt.formatRFC3339 })) := by
  refine ⟨?_, ?_, ?_⟩
  · simp [tasksDataSourceRead, h]
  · intro s2 h2
    simp only [tasksDataSourceRead, h] at h2
    simp only [TasksDSOutcome.success.injEq] at h2
    rw [← h2]
    simp
  · intro cfg rg m tk hp hr
    simp [taskDataSourceRead, hp, hr]

/-- Witness for C7 at a one-element task list. -/
theorem c7_tasks_data_source_mapping_witness :
    tasksDataSourceRead (fun _ => .ok [sampleTask]) { tasks := [], id := .null } =
      .success { tasks := [sampleMappedTask], id := .value "tasks" } ∧
    taskDataSourceRead sampleRemoteGet
        { sampleMappedTask with id := .value "42" } =
      ([42], .success { sampleMappedTask with id := .value "42" }) :=
  ⟨(c7_tasks_data_source_mapping (fun _ => .ok [sampleTask])
      { tasks := [], id := .null } [sampleTask] rfl).1
  , (c7_tasks_data_source_mapping (fun _ => .ok [sampleTask])
      { tasks := [], id := .null } [sampleTask] rfl).2.2
      { sampleMappedTask with id := .value "42" } sampleRemoteGet 42 sampleTask
      (by decide) rfl⟩

/-- C8: provider Configure builds the shared client with the fixed localhost base
URL whenever the host attribute value is the empty string, in particular when the
attribute is unset (null); any non-empty host value is used verbatim as the
client host. -/
theorem c8_host_default (config : TaskMateProviderModel) :
    (config.host.valueString = "" →
        (providerConfigure config).host = "http://localhost:8080") ∧
    (config.host.valueString ≠ "" →
        (providerConfigure config).host = config.host.valueString) ∧
    (providerConfigure { host := .null, token := config.token }).host =
      "http://localhost:8080" := by
  refine ⟨?_, ?_, rfl⟩
  · intro h
    simp [providerConfigure, NewClient, h]
  · intro h
    simp [providerConfigure, NewClient, h]

/-- Witness for C8 at an empty, a null and a non-empty host. -/
theorem c8_host_default_witness :
    (providerConfigure { host := .value "", token := .value "s" }).host =
      "http://localhost:8080" ∧
    (providerConfigure { host := .null, token := .value "s" }).host =
      "http://localhost:8080" ∧
    (providerConfigure
        { host := .value "https://h.example:9000", token := .value "s" }).host =
      "https://h.example:9000" :=
  ⟨(c8_host_default { host := .value "", token := .value "s" }).1 (by decide)
  , (c8_host_default { host := .null, token := .value "s" }).2.2
  , (c8_host_default { host := .value "https://h.example:9000", token := .value "s" }).2.1
      (by decide)⟩

end TaskMate
